import Mathlib

/-!
Shallow embedding of the Agentic-Customer-Support-Chatbot backend core:
the conversation store (`conversationService.ts`), the reply generator
(`llmService.ts`) and the two chat routes (`chatRoutes.ts`).

Strings are modelled as Lean `String` (a list of characters); JS string
operations (`trim`, `substring`, `includes`, `length`, the session-id
regular expression) are defined below on the character list.  Timestamps
(`new Date().toISOString()`) are modelled as naturals, totally ordered like
the ISO strings they stand for; generated UUIDs and timestamps are passed
to each operation as explicit arguments.  The external Gemini call is a
parameter `provider : String → Except JsError String` mapping the prompt to
either text or a thrown JS error (a message plus an optional `code` field).
-/

namespace ChatBot

/-- Whitespace test backing the model of JS `String.prototype.trim`. -/
def isWsChar (c : Char) : Bool :=
  c = ' ' || c = '\t' || c = '\n' || c = '\r'

/-- Model of JS `String.prototype.trim` on character lists: drop leading and
trailing whitespace. -/
def jsTrimList (l : List Char) : List Char :=
  ((l.dropWhile isWsChar).reverse.dropWhile isWsChar).reverse

/-- Model of JS `String.prototype.trim`. -/
def jsTrim (s : String) : String := ⟨jsTrimList s.data⟩

/-- Model of JS `String.length` (number of characters). -/
def jsLen (s : String) : Nat := s.data.length

/-- Model of JS `String.substring(0, n)`. -/
def jsTake (s : String) (n : Nat) : String := ⟨s.data.take n⟩

/-- Does the pattern (first argument) occur at the head of the second list? -/
def leadsWith : List Char → List Char → Bool
  | [], _ => true
  | _ :: _, [] => false
  | a :: as, b :: bs => a == b && leadsWith as bs

/-- Does the pattern occur anywhere in the list?  Model of JS
`String.prototype.includes`. -/
def hasSub (pat : List Char) : List Char → Bool
  | [] => leadsWith pat []
  | c :: rest => leadsWith pat (c :: rest) || hasSub pat rest

/-- Model of JS `s.includes(pat)`. -/
def jsIncludes (s pat : String) : Bool := hasSub pat.data s.data

/-- Hexadecimal digit, case-insensitive, as in the session-id regex
character class `[0-9a-f]` with the `i` flag. -/
def isHexChar (c : Char) : Bool :=
  ('0' ≤ c && c ≤ '9') || ('a' ≤ c && c ≤ 'f') || ('A' ≤ c && c ≤ 'F')

/-- Consume exactly `n` hexadecimal characters, returning the rest. -/
def takeHex : Nat → List Char → Option (List Char)
  | 0, l => some l
  | _ + 1, [] => none
  | n + 1, c :: l => if isHexChar c then takeHex n l else none

/-- Consume one dash. -/
def takeDash : List Char → Option (List Char)
  | '-' :: l => some l
  | _ => none

/-- The session-id format check of `chatRoutes.ts`: the anchored regular
expression testing for five dash-separated hexadecimal groups of lengths
8, 4, 4, 4 and 12, case-insensitive.  The same shape check models the zod
`z.string().uuid()` validator of the POST body schema. -/
def isUuid (s : String) : Bool :=
  match takeHex 8 s.data >>= takeDash >>= takeHex 4 >>= takeDash >>=
      takeHex 4 >>= takeDash >>= takeHex 4 >>= takeDash >>= takeHex 12 with
  | some [] => true
  | _ => false

/-- Model of JS `Array.prototype.join(sep)`. -/
def joinSep (sep : String) : List String → String
  | [] => ""
  | [s] => s
  | s :: rest => s ++ sep ++ joinSep sep rest

/-- The `sender` column: closed set from the `conversationService.ts`
interfaces and the SQL `CHECK(sender IN ('user', 'ai'))`. -/
inductive Sender where
  | user
  | ai
deriving DecidableEq, Repr

/-- The `MessageData` interface of `conversationService.ts`. -/
structure MessageData where
  id : String
  conversationId : String
  sender : Sender
  text : String
  timestamp : Nat
deriving DecidableEq, Repr

/-- The `ConversationData` interface of `conversationService.ts`. -/
structure ConversationData where
  id : String
  createdAt : Nat
  updatedAt : Nat
deriving DecidableEq, Repr

/-- The SQLite database contents: the `conversations` and `messages`
tables, each in insertion order. -/
structure Store where
  conversations : List ConversationData
  messages : List MessageData
deriving DecidableEq, Repr

/-- `ConversationService.createConversation`, with the minted UUID and the
current time passed explicitly. -/
def createConversation (st : Store) (newId : String) (now : Nat) :
    ConversationData × Store :=
  let c : ConversationData := ⟨newId, now, now⟩
  (c, ⟨st.conversations ++ [c], st.messages⟩)

/-- `ConversationService.getConversation`: `SELECT * FROM conversations
WHERE id = ?`. -/
def getConversation (st : Store) (cid : String) : Option ConversationData :=
  st.conversations.find? (fun c => c.id == cid)

/-- `ConversationService.getOrCreateConversation`.  The JS guard
`if (conversationId)` is a truthiness test, so the empty string behaves
like an absent id. -/
def getOrCreateConversation (st : Store) (sessionId : Option String)
    (newId : String) (now : Nat) : ConversationData × Store :=
  match sessionId with
  | some cid =>
    if cid = "" then createConversation st newId now
    else
      match getConversation st cid with
      | some c => (c, st)
      | none => createConversation st newId now
  | none => createConversation st newId now

/-- `ConversationService.addMessage`: insert the message row, then
`UPDATE conversations SET updatedAt = ? WHERE id = ?`. -/
def addMessage (st : Store) (cid : String) (sender : Sender) (text : String)
    (newId : String) (now : Nat) : MessageData × Store :=
  let m : MessageData := ⟨newId, cid, sender, text, now⟩
  (m,
   ⟨st.conversations.map (fun c => if c.id = cid then { c with updatedAt := now } else c),
    st.messages ++ [m]⟩)

/-- Timestamp order on message rows, the `ORDER BY timestamp ASC` key. -/
def tsLe (a b : MessageData) : Prop := a.timestamp ≤ b.timestamp

instance : DecidableRel tsLe :=
  fun a b => Nat.decLe a.timestamp b.timestamp

instance : IsTotal MessageData tsLe := ⟨fun a b => Nat.le_total _ _⟩

instance : IsTrans MessageData tsLe := ⟨fun _ _ _ => Nat.le_trans⟩

/-- `ConversationService.getMessages`: `SELECT * FROM messages WHERE
conversationId = ? ORDER BY timestamp ASC`, modelled as a stable sort by
timestamp of the rows with the given conversation id. -/
def getMessages (st : Store) (cid : String) : List MessageData :=
  List.insertionSort tsLe (st.messages.filter (fun m => m.conversationId == cid))

/-- `MAX_MESSAGE_LENGTH` from `llmService.ts`. -/
def MAX_MESSAGE_LENGTH : Nat := 2000

/-- `MAX_HISTORY_MESSAGES` from `llmService.ts`. -/
def MAX_HISTORY_MESSAGES : Nat := 10

/-- A thrown JS error as the `catch` block of `generateReply` observes it:
its `message` string and its optional `code` field. -/
structure JsError where
  message : String
  code : Option String
deriving DecidableEq, Repr

/-- The error thrown for an empty user message. -/
def emptyInputError : JsError := ⟨"Message cannot be empty", none⟩

/-- The error thrown for an empty provider response. -/
def emptyResponseError : JsError := ⟨"Empty response from LLM", none⟩

/-- The stable invalid-credentials error raised by the `catch` block. -/
def invalidCredentialsError : JsError :=
  ⟨"Invalid API key. Please check your GEMINI_API_KEY environment variable.", none⟩

/-- The stable rate-limit error raised by the `catch` block. -/
def rateLimitedError : JsError :=
  ⟨"API rate limit exceeded. Please try again in a moment.", none⟩

/-- The stable timeout error raised by the `catch` block. -/
def timeoutError : JsError := ⟨"Request timed out. Please try again.", none⟩

/-- The default message of the catch-all rethrow. -/
def genericFailureText : String := "Failed to generate reply. Please try again later."

/-- The `catch` block of `LLMService.generateReply`: map the caught error
to the error rethrown to the caller.  The last case models
`new Error(error.message || 'Failed to generate reply. ...')` (an empty
message string is falsy in JS). -/
def classifyCatch (e : JsError) : JsError :=
  if jsIncludes e.message "API_KEY" then invalidCredentialsError
  else if jsIncludes e.message "quota" || jsIncludes e.message "rate limit" then
    rateLimitedError
  else if jsIncludes e.message "timeout" || e.code == some "ETIMEDOUT" then
    timeoutError
  else ⟨if e.message = "" then genericFailureText else e.message, none⟩

/-- The truncation step of `generateReply`: messages longer than
`MAX_MESSAGE_LENGTH` are cut to that length with an ellipsis appended. -/
def truncateMessage (m : String) : String :=
  if jsLen m > MAX_MESSAGE_LENGTH then jsTake m MAX_MESSAGE_LENGTH ++ "..." else m

/-- One rendered history line: `` `${role}: ${msg.text}` ``. -/
def renderTurn (m : MessageData) : String :=
  (if m.sender = Sender.user then "Customer" else "Support Agent") ++ ": " ++ m.text

/-- `conversationHistory.slice(-MAX_HISTORY_MESSAGES)`: the last at most
ten messages of the history. -/
def recentOf (hist : List MessageData) : List MessageData :=
  hist.drop (hist.length - MAX_HISTORY_MESSAGES)

/-- The `historyText` local of `generateReply`. -/
def historyTextOf (hist : List MessageData) : String :=
  joinSep "\n" ((recentOf hist).map renderTurn)

/-- The fixed instructional preamble `DOMAIN_KNOWLEDGE` of `llmService.ts`
(static configuration text; its exact content is irrelevant to every
property proved below). -/
def DOMAIN_KNOWLEDGE : String :=
  "\nYou are a helpful and friendly customer support agent for \x22SpurStore\x22, a small e-commerce store. \nHere\x27s important information about our store:\n...\n"

/-- The prompt string assembled by `generateReply` from the (already
truncated) user message and the history window; the JS template falls back
to a fixed line when `historyText` is empty (empty strings are falsy). -/
def promptFor (sentMessage : String) (hist : List MessageData) : String :=
  DOMAIN_KNOWLEDGE ++ "\n\nPrevious conversation:\n" ++
    (if historyTextOf hist = "" then "This is the start of the conversation."
     else historyTextOf hist) ++
    "\n\nCustomer: " ++ sentMessage ++ "\nSupport Agent:"

/-- The `try` body of `LLMService.generateReply`: empty-input check,
truncation, prompt assembly, provider call, trim of the response and
empty-response check.  Errors are the thrown JS errors before the `catch`
block maps them. -/
def generateReplyAux (userMessage : String) (hist : List MessageData)
    (provider : String → Except JsError String) : Except JsError String :=
  if jsTrim userMessage = "" then Except.error emptyInputError
  else
    match provider (promptFor (truncateMessage userMessage) hist) with
    | Except.error e => Except.error e
    | Except.ok raw =>
      let reply := jsTrim raw
      if reply = "" then Except.error emptyResponseError else Except.ok reply

/-- `LLMService.generateReply`: the `try` body with every thrown error
routed through the `catch` block. -/
def generateReply (userMessage : String) (hist : List MessageData)
    (provider : String → Except JsError String) : Except JsError String :=
  match generateReplyAux userMessage hist provider with
  | Except.ok r => Except.ok r
  | Except.error e => Except.error (classifyCatch e)

/-- The fixed user-safe fallback reply of the POST /chat/message route. -/
def fallbackText : String :=
  "I apologize, but I\x27m experiencing technical difficulties right now. Please try again in a moment, or contact our support team at support@spurstore.com for immediate assistance."

/-- The zod body schema `messageSchema` of `chatRoutes.ts`:
`message: z.string().min(1).max(2000)`, `sessionId:
z.string().uuid().optional()`. -/
def validBody (message : String) (sessionId : Option String) : Bool :=
  (1 ≤ jsLen message && jsLen message ≤ 2000) &&
    (match sessionId with
     | none => true
     | some sid => isUuid sid)

/-- Outcome of POST /chat/message: a 200 JSON body or a 400 rejection. -/
inductive PostResult where
  | ok (reply : String) (sessionId : String)
  | badRequest
deriving DecidableEq, Repr

/-- The history argument the POST route passes to `generateReply`: the
full (unwindowed) message list of the resolved conversation after the
user's message has been persisted. -/
def contextPassedToGenerator (st : Store) (message : String)
    (sessionId : Option String) (newConvId mid1 : String) (t0 t1 : Nat) :
    List MessageData :=
  let resolved := getOrCreateConversation st sessionId newConvId t0
  getMessages (addMessage resolved.2 resolved.1.id Sender.user message mid1 t1).2
    resolved.1.id

/-- The POST /chat/message handler of `chatRoutes.ts`: validate, resolve
the conversation, persist the user turn, fetch history, generate (falling
back to `fallbackText` on any generator error), persist the AI turn,
answer 200. -/
def postMessage (st : Store) (message : String) (sessionId : Option String)
    (newConvId mid1 mid2 : String) (t0 t1 t2 : Nat)
    (provider : String → Except JsError String) : PostResult × Store :=
  if validBody message sessionId then
    let resolved := getOrCreateConversation st sessionId newConvId t0
    let conv := resolved.1
    let st2 := (addMessage resolved.2 conv.id Sender.user message mid1 t1).2
    let history := getMessages st2 conv.id
    let aiReply :=
      match generateReply message history provider with
      | Except.ok r => r
      | Except.error _ => fallbackText
    let st3 := (addMessage st2 conv.id Sender.ai aiReply mid2 t2).2
    (PostResult.ok aiReply conv.id, st3)
  else (PostResult.badRequest, st)

/-- Outcome of GET /chat/history/:sessionId. -/
inductive HistoryResult where
  | ok (sessionId : String) (createdAt : Nat) (messages : List MessageData)
  | badRequest
  | notFound
deriving DecidableEq, Repr

/-- The GET /chat/history/:sessionId handler of `chatRoutes.ts`. -/
def getHistory (st : Store) (sessionId : String) : HistoryResult :=
  if isUuid sessionId then
    match getConversation st sessionId with
    | none => HistoryResult.notFound
    | some conv => HistoryResult.ok conv.id conv.createdAt (getMessages st sessionId)
  else HistoryResult.badRequest

/-- Database states reachable through the store operations.  Creation
mints a fresh primary key (duplicate inserts are rejected by SQLite);
message insertion requires the parent row (`foreign_keys = ON`) and a
current time at or after every stored message timestamp (`new Date()` is
nondecreasing across calls). -/
inductive Reachable : Store → Prop where
  | empty : Reachable ⟨[], []⟩
  | create (st : Store) (newId : String) (now : Nat) :
      Reachable st → (∀ c ∈ st.conversations, c.id ≠ newId) →
      Reachable (createConversation st newId now).2
  | add (st : Store) (cid : String) (sender : Sender) (text : String)
      (newId : String) (now : Nat) :
      Reachable st → (∃ c ∈ st.conversations, c.id = cid) →
      (∀ m ∈ st.messages, m.timestamp ≤ now) →
      Reachable (addMessage st cid sender text newId now).2

/-! ### Helper lemmas -/

/-- Dropping a prefix of matching characters is idempotent. -/
lemma dropWhile_self (p : Char → Bool) (l : List Char) :
    List.dropWhile p (List.dropWhile p l) = List.dropWhile p l := by
  induction l with
  | nil => rfl
  | cons a t ih =>
    by_cases h : p a
    · simp [List.dropWhile_cons, h, ih]
    · simp [List.dropWhile_cons, h]

/-- Any sublist `l` standing at the front of a list whose head does not
match is itself left-trimmed. -/
lemma dropWhile_eq_self_of_append (p : Char → Bool) (l t : List Char)
    (h : List.dropWhile p (l ++ t) = l ++ t) : List.dropWhile p l = l := by
  cases l with
  | nil => rfl
  | cons a l' =>
    by_cases hpa : p a
    · exfalso
      rw [List.cons_append, List.dropWhile_cons, if_pos hpa] at h
      have hle := (List.dropWhile_sublist (l := l' ++ t) p).length_le
      rw [h] at hle
      simp at hle
    · simp [List.dropWhile_cons, hpa]

/-- JS `trim` is idempotent (character-list version). -/
lemma jsTrimList_idem (l : List Char) : jsTrimList (jsTrimList l) = jsTrimList l := by
  unfold jsTrimList
  set w := isWsChar with hw
  set A := List.dropWhile w l with hA
  set B := List.dropWhile w A.reverse with hB
  have hAtrim : List.dropWhile w A = A := dropWhile_self w l
  have hsplit : A = B.reverse ++ (List.takeWhile w A.reverse).reverse := by
    calc A = A.reverse.reverse := (List.reverse_reverse A).symm
    _ = (List.takeWhile w A.reverse ++ B).reverse := by
        rw [List.takeWhile_append_dropWhile]
    _ = B.reverse ++ (List.takeWhile w A.reverse).reverse := by
        rw [List.reverse_append]
  have h1 : List.dropWhile w B.reverse = B.reverse := by
    apply dropWhile_eq_self_of_append w B.reverse ((List.takeWhile w A.reverse).reverse)
    rw [← hsplit]
    exact hAtrim
  have h2 : List.dropWhile w B = B := dropWhile_self w A.reverse
  rw [h1, List.reverse_reverse, h2]

/-- JS `trim` is idempotent. -/
lemma jsTrim_idem (s : String) : jsTrim (jsTrim s) = jsTrim s :=
  String.ext (jsTrimList_idem s.data)

/-- Resolving or creating a conversation leaves the messages table
untouched. -/
lemma getOrCreate_messages (st : Store) (sid : Option String) (nid : String)
    (t : Nat) : (getOrCreateConversation st sid nid t).2.messages = st.messages := by
  unfold getOrCreateConversation createConversation
  cases sid with
  | none => rfl
  | some cid =>
    by_cases h : cid = ""
    · simp [h]
    · simp only [if_neg h]
      cases getConversation st cid <;> rfl

/-- The `catch` block always rethrows a fresh error without a `code`
field: no provider-specific error shape reaches the caller. -/
lemma classifyCatch_code_none (e : JsError) : (classifyCatch e).code = none := by
  unfold classifyCatch
  split
  · rfl
  · split
    · rfl
    · split
      · rfl
      · rfl

/-- The `catch` block always rethrows a non-empty message. -/
lemma classifyCatch_message_ne (e : JsError) : (classifyCatch e).message ≠ "" := by
  unfold classifyCatch
  split
  · decide
  · split
    · decide
    · split
      · decide
      · show (if e.message = "" then genericFailureText else e.message) ≠ ""
        by_cases h : e.message = ""
        · rw [if_pos h]
          decide
        · rw [if_neg h]
          exact h

/-- The empty-input error passes through the `catch` mapping unchanged. -/
lemma classifyCatch_emptyInput : classifyCatch emptyInputError = emptyInputError := by
  decide

/-- The empty-response error passes through the `catch` mapping unchanged. -/
lemma classifyCatch_emptyResponse :
    classifyCatch emptyResponseError = emptyResponseError := by
  decide

/-- For input non-empty after trimming, `generateReply` is the provider
call on the assembled prompt followed by response trimming, the
empty-response check and the `catch` mapping. -/
lemma generateReply_provider (m : String) (hist : List MessageData)
    (provider : String → Except JsError String) (h : jsTrim m ≠ "") :
    generateReply m hist provider =
      match provider (promptFor (truncateMessage m) hist) with
      | Except.error e => Except.error (classifyCatch e)
      | Except.ok raw =>
        if jsTrim raw = "" then Except.error (classifyCatch emptyResponseError)
        else Except.ok (jsTrim raw) := by
  unfold generateReply generateReplyAux
  rw [if_neg h]
  cases hp : provider (promptFor (truncateMessage m) hist) with
  | error e => rfl
  | ok raw =>
    by_cases hr : jsTrim raw = "" <;> simp [hr]

/-- Provider-failure case of `generateReply_provider`. -/
lemma generateReply_provider_error (m : String) (hist : List MessageData)
    (provider : String → Except JsError String) (e : JsError) (h : jsTrim m ≠ "")
    (hp : provider (promptFor (truncateMessage m) hist) = Except.error e) :
    generateReply m hist provider = Except.error (classifyCatch e) := by
  rw [generateReply_provider m hist provider h, hp]

/-- Provider-success case of `generateReply_provider`. -/
lemma generateReply_provider_ok (m : String) (hist : List MessageData)
    (provider : String → Except JsError String) (raw : String) (h : jsTrim m ≠ "")
    (hp : provider (promptFor (truncateMessage m) hist) = Except.ok raw) :
    generateReply m hist provider =
      if jsTrim raw = "" then Except.error (classifyCatch emptyResponseError)
      else Except.ok (jsTrim raw) := by
  rw [generateReply_provider m hist provider h, hp]

/-- If the `catch` mapping yields the empty-input error, the caught error
already carried the empty-input message. -/
lemma classifyCatch_eq_emptyInput {e : JsError}
    (h : classifyCatch e = emptyInputError) : e.message = emptyInputError.message := by
  unfold classifyCatch at h
  split at h
  · exact absurd h (by decide)
  · split at h
    · exact absurd h (by decide)
    · split at h
      · exact absurd h (by decide)
      · have hmsg := congrArg JsError.message h
        by_cases hm : e.message = ""
        · rw [if_pos hm] at hmsg
          exact absurd hmsg (by decide)
        · rw [if_neg hm] at hmsg
          exact hmsg

/-! ### Claim C2 -/

/-- C2: a POST /chat/message body with an empty message, a message longer
than 2000 characters, or a malformed `sessionId` is rejected with 400 and
performs no mutation: the store is returned unchanged, so the conversation
and message counts are unchanged. -/
theorem claim2_invalid_request_rejected (st : Store) (message : String)
    (sessionId : Option String) (newConvId mid1 mid2 : String) (t0 t1 t2 : Nat)
    (provider : String → Except JsError String)
    (h : jsLen message = 0 ∨ 2000 < jsLen message ∨
      (∃ sid, sessionId = some sid ∧ isUuid sid = false)) :
    postMessage st message sessionId newConvId mid1 mid2 t0 t1 t2 provider =
      (PostResult.badRequest, st) ∧
    (postMessage st message sessionId newConvId mid1 mid2 t0 t1 t2 provider).2.conversations.length
      = st.conversations.length ∧
    (postMessage st message sessionId newConvId mid1 mid2 t0 t1 t2 provider).2.messages.length
      = st.messages.length := by
  have hv : validBody message sessionId = false := by
    unfold validBody
    rcases h with h | h | ⟨sid, hs, hbad⟩
    · simp [h]
    · have h2 : ¬ jsLen message ≤ 2000 := by omega
      simp [h2]
    · subst hs
      simp [hbad]
  refine ⟨?_, ?_, ?_⟩ <;> simp [postMessage, hv]

/-- Witness for C2 at a concrete invalid input (empty message). -/
theorem claim2_witness :
    postMessage ⟨[], []⟩ "" none "c" "m1" "m2" 0 1 2
      (fun _ => Except.error ⟨"boom", none⟩) = (PostResult.badRequest, ⟨[], []⟩) :=
  (claim2_invalid_request_rejected ⟨[], []⟩ "" none "c" "m1" "m2" 0 1 2
    (fun _ => Except.error ⟨"boom", none⟩) (Or.inl (by decide))).1

/-! ### Claim C3 -/

/-- C3 counterexample: the JS guard `if (conversationId)` is a truthiness
test, so a supplied empty-string id that resolves to an existing
conversation row is ignored and a new conversation is created anyway:
the claim as stated fails at the supplied id `""`. -/
theorem claim3_counterexample :
    getConversation ⟨[⟨"", 5, 5⟩], []⟩ "" = some ⟨"", 5, 5⟩ ∧
    (getOrCreateConversation ⟨[⟨"", 5, 5⟩], []⟩ (some "") "fresh-id" 7).1 ≠
      (⟨"", 5, 5⟩ : ConversationData) ∧
    ((getOrCreateConversation ⟨[⟨"", 5, 5⟩], []⟩ (some "") "fresh-id" 7).2).conversations.length ≠
      (⟨[⟨"", 5, 5⟩], []⟩ : Store).conversations.length := by
  decide

/-- C3 amended: for every supplied NON-EMPTY id that resolves, the same
conversation is returned and the store is unchanged; for an absent id, an
empty-string id, or a non-empty id that does not resolve, a fresh
conversation is created and returned without error. -/
theorem claim3_get_or_create (st : Store) :
    (∀ (cid : String) (c : ConversationData) (newId : String) (now : Nat),
      cid ≠ "" → getConversation st cid = some c →
      getOrCreateConversation st (some cid) newId now = (c, st)) ∧
    (∀ (newId : String) (now : Nat),
      getOrCreateConversation st none newId now = createConversation st newId now ∧
      getOrCreateConversation st (some "") newId now = createConversation st newId now) ∧
    (∀ (cid newId : String) (now : Nat),
      cid ≠ "" → getConversation st cid = none →
      getOrCreateConversation st (some cid) newId now = createConversation st newId now) ∧
    (∀ (newId : String) (now : Nat),
      (createConversation st newId now).1 = ⟨newId, now, now⟩ ∧
      (createConversation st newId now).2.conversations
        = st.conversations ++ [⟨newId, now, now⟩] ∧
      (createConversation st newId now).2.messages = st.messages) := by
  refine ⟨?_, ?_, ?_, ?_⟩
  · intro cid c newId now hne hres
    simp [getOrCreateConversation, hne, hres]
  · intro newId now
    exact ⟨rfl, by simp [getOrCreateConversation]⟩
  · intro cid newId now hne hres
    simp [getOrCreateConversation, hne, hres]
  · intro newId now
    exact ⟨rfl, rfl, rfl⟩

/-- Witness for C3 at a concrete resolving id. -/
theorem claim3_witness :
    getOrCreateConversation ⟨[⟨"ab", 1, 2⟩], []⟩ (some "ab") "zz" 9 =
      (⟨"ab", 1, 2⟩, ⟨[⟨"ab", 1, 2⟩], []⟩) :=
  (claim3_get_or_create ⟨[⟨"ab", 1, 2⟩], []⟩).1 "ab" ⟨"ab", 1, 2⟩ "zz" 9
    (by decide) (by decide)

/-! ### Claim C5 -/

/-- C5: `generateReply` never fails on length.  A message longer than 2000
characters is silently cut to its first 2000 characters with an ellipsis
appended before being sent; a message of at most 2000 characters is sent
unmodified; in either case (for input non-empty after trimming) execution
proceeds to the provider call with the prompt built from the truncated
message. -/
theorem claim5_truncation :
    (∀ m : String, 2000 < jsLen m → truncateMessage m = jsTake m 2000 ++ "...") ∧
    (∀ m : String, jsLen m ≤ 2000 → truncateMessage m = m) ∧
    (∀ (m : String) (hist : List MessageData)
        (provider : String → Except JsError String), jsTrim m ≠ "" →
      generateReply m hist provider =
        match provider (promptFor (truncateMessage m) hist) with
        | Except.error e => Except.error (classifyCatch e)
        | Except.ok raw =>
          if jsTrim raw = "" then Except.error (classifyCatch emptyResponseError)
          else Except.ok (jsTrim raw)) := by
  refine ⟨?_, ?_, ?_⟩
  · intro m h
    simp [truncateMessage, MAX_MESSAGE_LENGTH, h]
  · intro m h
    have h2 : ¬ 2000 < jsLen m := by omega
    simp [truncateMessage, MAX_MESSAGE_LENGTH, h2]
  · intro m hist provider h
    exact generateReply_provider m hist provider h

/-- Witness for C5 at a concrete 2001-character message. -/
theorem claim5_witness :
    truncateMessage ⟨List.replicate 2001 'a'⟩ =
      jsTake ⟨List.replicate 2001 'a'⟩ 2000 ++ "..." :=
  claim5_truncation.1 ⟨List.replicate 2001 'a'⟩ (by
    have h : jsLen (⟨List.replicate 2001 'a'⟩ : String) = 2001 :=
      List.length_replicate 2001 'a'
    omega)

/-! ### Claim C6 -/

/-- C6: `generateReply` fails with the empty-input error exactly when the
user message is empty after trimming (for the converse the provider's own
failure messages must not collide with the fixed empty-input message text,
since thrown JS errors are distinguished by message only); an empty or
whitespace-only provider response yields the empty-response failure rather
than a successful empty string; and every successfully returned string is
its own trim and non-empty, hence non-empty after trimming. -/
theorem claim6_empty_input_and_response :
    (∀ (m : String) (hist : List MessageData)
        (provider : String → Except JsError String), jsTrim m = "" →
      generateReply m hist provider = Except.error emptyInputError) ∧
    (∀ (m : String) (hist : List MessageData)
        (provider : String → Except JsError String), jsTrim m ≠ "" →
      (∀ e, provider (promptFor (truncateMessage m) hist) = Except.error e →
        e.message ≠ emptyInputError.message) →
      generateReply m hist provider ≠ Except.error emptyInputError) ∧
    (∀ (m : String) (hist : List MessageData)
        (provider : String → Except JsError String) (raw : String),
      jsTrim m ≠ "" → provider (promptFor (truncateMessage m) hist) = Except.ok raw →
      jsTrim raw = "" →
      generateReply m hist provider = Except.error emptyResponseError) ∧
    (∀ (m : String) (hist : List MessageData)
        (provider : String → Except JsError String) (r : String),
      generateReply m hist provider = Except.ok r → jsTrim r = r ∧ r ≠ "") := by
  refine ⟨?_, ?_, ?_, ?_⟩
  · intro m hist provider h
    unfold generateReply generateReplyAux
    rw [if_pos h]
    show Except.error (classifyCatch emptyInputError) = _
    rw [classifyCatch_emptyInput]
  · intro m hist provider h hprov heq
    cases hp : provider (promptFor (truncateMessage m) hist) with
    | error e =>
      rw [generateReply_provider_error m hist provider e h hp] at heq
      simp only [Except.error.injEq] at heq
      exact hprov e hp (classifyCatch_eq_emptyInput heq)
    | ok raw =>
      rw [generateReply_provider_ok m hist provider raw h hp] at heq
      by_cases hr : jsTrim raw = ""
      · rw [if_pos hr, classifyCatch_emptyResponse] at heq
        simp only [Except.error.injEq] at heq
        exact absurd heq (by decide)
      · rw [if_neg hr] at heq
        exact absurd heq (by simp)
  · intro m hist provider raw h hp hr
    rw [generateReply_provider_ok m hist provider raw h hp, if_pos hr,
      classifyCatch_emptyResponse]
  · intro m hist provider r heq
    by_cases h : jsTrim m = ""
    · rw [show generateReply m hist provider = Except.error emptyInputError from by
        unfold generateReply generateReplyAux
        rw [if_pos h]
        show Except.error (classifyCatch emptyInputError) = _
        rw [classifyCatch_emptyInput]] at heq
      exact absurd heq (by simp)
    · cases hp : provider (promptFor (truncateMessage m) hist) with
      | error e =>
        rw [generateReply_provider_error m hist provider e h hp] at heq
        exact absurd heq (by simp)
      | ok raw =>
        rw [generateReply_provider_ok m hist provider raw h hp] at heq
        by_cases hr : jsTrim raw = ""
        · rw [if_pos hr] at heq
          exact absurd heq (by simp)
        · rw [if_neg hr] at heq
          simp only [Except.ok.injEq] at heq
          subst heq
          exact ⟨jsTrim_idem raw, hr⟩

/-- Witness for C6 at a concrete whitespace-only message. -/
theorem claim6_witness :
    generateReply "   " [] (fun _ => Except.ok "yo") = Except.error emptyInputError :=
  claim6_empty_input_and_response.1 "   " [] (fun _ => Except.ok "yo") (by decide)

/-! ### Claim C7 -/

/-- C7: every failure `generateReply` raises went through the `catch`
mapping, which realises the closed taxonomy: the three provider-signal
kinds are the fixed credential/rate-limit/timeout errors, the two local
kinds are the fixed empty-input/empty-response errors, and everything else
is the catch-all provider-error rethrow.  No provider-internal shape
leaks: the raised error is always a fresh error value carrying no `code`
field and a non-empty message. -/
theorem claim7_failure_taxonomy (m : String) (hist : List MessageData)
    (provider : String → Except JsError String) (e : JsError)
    (h : generateReply m hist provider = Except.error e) :
    (∃ e0, e = classifyCatch e0) ∧ e.code = none ∧ e.message ≠ "" := by
  unfold generateReply at h
  cases haux : generateReplyAux m hist provider with
  | ok r => rw [haux] at h; exact absurd h (by simp)
  | error e0 =>
    rw [haux] at h
    simp only [Except.error.injEq] at h
    subst h
    exact ⟨⟨e0, rfl⟩, classifyCatch_code_none e0, classifyCatch_message_ne e0⟩

/-- Witness for C7 at a concrete failing call (empty input). -/
theorem claim7_witness : emptyInputError.code = none ∧ emptyInputError.message ≠ "" :=
  (claim7_failure_taxonomy "" [] (fun _ => Except.ok "hello") emptyInputError rfl).2

/-! ### Claim C1 -/

/-- C1: when the body is valid and the generator fails for any reason,
the POST route still answers 200 with the fixed non-empty fallback text as
the AI turn, and exactly two messages are appended: the user's original
text verbatim, then the fallback AI text.  For comparison, the appended
message count is two for every provider behaviour, success included. -/
theorem claim1_generator_failure_fallback (st : Store) (message : String)
    (sessionId : Option String) (newConvId mid1 mid2 : String) (t0 t1 t2 : Nat)
    (provider : String → Except JsError String) (e : JsError)
    (hval : validBody message sessionId = true)
    (hfail : generateReply message
      (contextPassedToGenerator st message sessionId newConvId mid1 t0 t1) provider =
      Except.error e) :
    (postMessage st message sessionId newConvId mid1 mid2 t0 t1 t2 provider).1 =
      PostResult.ok fallbackText (getOrCreateConversation st sessionId newConvId t0).1.id ∧
    fallbackText ≠ "" ∧
    (postMessage st message sessionId newConvId mid1 mid2 t0 t1 t2 provider).2.messages =
      st.messages ++
        [⟨mid1, (getOrCreateConversation st sessionId newConvId t0).1.id,
            Sender.user, message, t1⟩,
         ⟨mid2, (getOrCreateConversation st sessionId newConvId t0).1.id,
            Sender.ai, fallbackText, t2⟩] ∧
    (∀ provider' : String → Except JsError String,
      (postMessage st message sessionId newConvId mid1 mid2 t0 t1 t2 provider').2.messages.length =
        st.messages.length + 2) := by
  simp only [contextPassedToGenerator] at hfail
  have hfail2 := hfail
  simp only [addMessage, getOrCreate_messages] at hfail2
  refine ⟨?_, by decide, ?_, ?_⟩
  · simp [postMessage, hval, hfail]
  · simp [postMessage, hval, hfail2, addMessage, getOrCreate_messages]
  · intro provider'
    cases hgen : generateReply message
        (getMessages (addMessage (getOrCreateConversation st sessionId newConvId t0).2
          (getOrCreateConversation st sessionId newConvId t0).1.id Sender.user message mid1 t1).2
          (getOrCreateConversation st sessionId newConvId t0).1.id) provider' with
    | ok r =>
      simp [postMessage, hval, hgen, addMessage, getOrCreate_messages]
    | error e' =>
      simp [postMessage, hval, hgen, addMessage, getOrCreate_messages]

/-- Witness for C1 at a concrete failing provider. -/
theorem claim1_witness :
    (postMessage ⟨[], []⟩ "hi" none "c1" "m1" "m2" 0 1 2
        (fun _ => Except.error ⟨"boom", none⟩)).1 =
      PostResult.ok fallbackText (getOrCreateConversation ⟨[], []⟩ none "c1" 0).1.id :=
  (claim1_generator_failure_fallback ⟨[], []⟩ "hi" none "c1" "m1" "m2" 0 1 2
    (fun _ => Except.error ⟨"boom", none⟩) ⟨"boom", none⟩ (by decide) rfl).1

/-! ### Claim C9 -/

/-- Invariant of every reachable store: messages reference existing
conversations, and every conversation's `updatedAt` bounds the timestamps
of all its messages. -/
lemma store_invariant (st : Store) (h : Reachable st) :
    (∀ m ∈ st.messages, ∃ c ∈ st.conversations, c.id = m.conversationId) ∧
    (∀ c ∈ st.conversations, ∀ m ∈ st.messages,
      m.conversationId = c.id → m.timestamp ≤ c.updatedAt) := by
  induction h with
  | empty => exact ⟨by simp, by simp⟩
  | create st newId now hr hfresh ih =>
    obtain ⟨ih1, ih2⟩ := ih
    constructor
    · intro m hm
      simp only [createConversation] at hm
      obtain ⟨c, hc, hcid⟩ := ih1 m hm
      exact ⟨c, by simp [createConversation, hc], hcid⟩
    · intro c hc m hm hmc
      simp only [createConversation, List.mem_append, List.mem_singleton] at hc hm
      rcases hc with hc | hc
      · exact ih2 c hc m hm hmc
      · subst hc
        obtain ⟨c', hc', hcid'⟩ := ih1 m hm
        rw [hmc] at hcid'
        exact absurd hcid' (hfresh c' hc')
  | add st cid sender text newId now hr hparent hmono ih =>
    obtain ⟨ih1, ih2⟩ := ih
    constructor
    · intro m hm
      simp only [addMessage, List.mem_append, List.mem_singleton] at hm
      rcases hm with hm | hm
      · obtain ⟨c, hc, hcid⟩ := ih1 m hm
        have hid : (if c.id = cid then { c with updatedAt := now } else c).id = c.id := by
          by_cases hcc : c.id = cid <;> simp [hcc]
        refine ⟨if c.id = cid then { c with updatedAt := now } else c, ?_, ?_⟩
        · simp only [addMessage]
          exact List.mem_map_of_mem _ hc
        · rw [hid]
          exact hcid
      · subst hm
        obtain ⟨c, hc, hcid⟩ := hparent
        have hid : (if c.id = cid then { c with updatedAt := now } else c).id = c.id := by
          by_cases hcc : c.id = cid <;> simp [hcc]
        refine ⟨if c.id = cid then { c with updatedAt := now } else c, ?_, ?_⟩
        · simp only [addMessage]
          exact List.mem_map_of_mem _ hc
        · rw [hid]
          exact hcid
    · intro c' hc' m hm hmc
      simp only [addMessage, List.mem_map, List.mem_append, List.mem_singleton] at hc' hm
      obtain ⟨c, hc, hfc⟩ := hc'
      rcases hm with hm | hm
      · by_cases hcc : c.id = cid
        · rw [← hfc]
          simp only [hcc, if_pos]
          exact hmono m hm
        · rw [← hfc] at hmc ⊢
          simp only [hcc, if_neg, ite_false] at hmc ⊢
          exact ih2 c hc m hm hmc
      · subst hm
        by_cases hcc : c.id = cid
        · rw [← hfc]
          simp [hcc]
        · rw [← hfc] at hmc
          simp only [hcc, ite_false] at hmc
          exact absurd hmc.symm hcc

/-- C9: after `addMessage` the new message carries the supplied timestamp
and the parent conversation's `updatedAt` equals it; and in every
reachable store state every conversation's `updatedAt` is greater than or
equal to the timestamp of each (hence of the most recent) of its
messages. -/
theorem claim9_updatedAt_invariant :
    (∀ (st : Store) (cid : String) (sender : Sender) (text mid : String) (ts : Nat),
      (addMessage st cid sender text mid ts).1.timestamp = ts ∧
      ∀ c ∈ (addMessage st cid sender text mid ts).2.conversations,
        c.id = cid → c.updatedAt = ts) ∧
    (∀ st : Store, Reachable st → ∀ c ∈ st.conversations, ∀ m ∈ st.messages,
      m.conversationId = c.id → m.timestamp ≤ c.updatedAt) := by
  constructor
  · intro st cid sender text mid ts
    refine ⟨rfl, ?_⟩
    intro c hc hcid
    simp only [addMessage, List.mem_map] at hc
    obtain ⟨c0, hc0, hfc⟩ := hc
    by_cases hcc : c0.id = cid
    · rw [← hfc]
      simp [hcc]
    · rw [← hfc] at hcid
      simp only [hcc, ite_false] at hcid
  · intro st hr
    exact (store_invariant st hr).2

/-- Witness for C9 on a concrete reachable two-step store. -/
theorem claim9_witness :
    (⟨"m1", "c1", Sender.user, "hi", 2⟩ : MessageData).timestamp ≤
      (⟨"c1", 1, 2⟩ : ConversationData).updatedAt := by
  have h0 : Reachable (⟨[], []⟩ : Store) := Reachable.empty
  have h1 : Reachable (createConversation ⟨[], []⟩ "c1" 1).2 :=
    Reachable.create ⟨[], []⟩ "c1" 1 h0 (by simp)
  have h2 : Reachable (addMessage ⟨[⟨"c1", 1, 1⟩], []⟩ "c1" Sender.user "hi" "m1" 2).2 :=
    Reachable.add ⟨[⟨"c1", 1, 1⟩], []⟩ "c1" Sender.user "hi" "m1" 2 h1
      ⟨⟨"c1", 1, 1⟩, by simp, rfl⟩ (by simp)
  exact claim9_updatedAt_invariant.2
    ⟨[⟨"c1", 1, 2⟩], [⟨"m1", "c1", Sender.user, "hi", 2⟩]⟩ h2
    ⟨"c1", 1, 2⟩ (by simp) ⟨"m1", "c1", Sender.user, "hi", 2⟩ (by simp) rfl

/-! ### Claim C8 -/

/-- C8: GET /chat/history/:sessionId answers 400 on a malformed id, 404
when the id resolves to no conversation, and otherwise 200 with the
conversation metadata and the full unwindowed message sequence — a
permutation of every stored row of that conversation, each with
`conversationId` equal to the requested id, sorted in non-decreasing
timestamp order. -/
theorem claim8_history_endpoint (st : Store) (sid : String) :
    (isUuid sid = false → getHistory st sid = HistoryResult.badRequest) ∧
    (isUuid sid = true → getConversation st sid = none →
      getHistory st sid = HistoryResult.notFound) ∧
    (∀ conv : ConversationData, isUuid sid = true →
      getConversation st sid = some conv →
      getHistory st sid =
        HistoryResult.ok conv.id conv.createdAt (getMessages st sid) ∧
      conv.id = sid ∧
      List.Perm (getMessages st sid)
        (st.messages.filter (fun m => m.conversationId == sid)) ∧
      (∀ m ∈ getMessages st sid, m.conversationId = sid) ∧
      List.Sorted tsLe (getMessages st sid)) := by
  refine ⟨?_, ?_, ?_⟩
  · intro h
    simp [getHistory, h]
  · intro h hn
    simp [getHistory, h, hn]
  · intro conv h hc
    refine ⟨by simp [getHistory, h, hc], ?_, ?_, ?_, ?_⟩
    · unfold getConversation at hc
      have := List.find?_some hc
      simpa using this
    · exact List.perm_insertionSort tsLe _
    · intro m hm
      unfold getMessages at hm
      rw [List.mem_insertionSort] at hm
      have := List.of_mem_filter hm
      simpa using this
    · exact List.sorted_insertionSort tsLe _

/-- Witness for C8 at a concrete stored conversation. -/
theorem claim8_witness :
    getHistory ⟨[⟨"11111111-1111-1111-1111-111111111111", 1, 1⟩], []⟩
        "11111111-1111-1111-1111-111111111111" =
      HistoryResult.ok "11111111-1111-1111-1111-111111111111" 1
        (getMessages ⟨[⟨"11111111-1111-1111-1111-111111111111", 1, 1⟩], []⟩
          "11111111-1111-1111-1111-111111111111") :=
  ((claim8_history_endpoint ⟨[⟨"11111111-1111-1111-1111-111111111111", 1, 1⟩], []⟩
      "11111111-1111-1111-1111-111111111111").2.2
    ⟨"11111111-1111-1111-1111-111111111111", 1, 1⟩ (by decide) (by decide)).1

/-! ### Claim C4 -/

/-- A well-formed session id used by the C4 counterexample store. -/
def sampleUuid : String := "11111111-1111-1111-1111-111111111111"

/-- A store holding one conversation with twelve persisted messages. -/
def c4Store : Store :=
  ⟨[⟨sampleUuid, 0, 12⟩],
   (List.range 12).map (fun i => ⟨"m", sampleUuid, Sender.user, "a", i + 1⟩)⟩

/-- C4 counterexample: on a valid request against a conversation that
already holds twelve messages, the history argument the POST route hands
to the generator contains thirteen messages — the route passes the full
unwindowed history, exceeding the claimed ten-message bound on the context
passed to the generator (the ten-message cap is applied only inside the
generator). -/
theorem claim4_counterexample :
    validBody "hi" (some sampleUuid) = true ∧
    (contextPassedToGenerator c4Store "hi" (some sampleUuid) "fresh" "m13" 90 13).length
      = 13 ∧
    ¬ ((contextPassedToGenerator c4Store "hi" (some sampleUuid) "fresh" "m13" 90 13).length
        ≤ MAX_HISTORY_MESSAGES) := by
  decide

/-- C4 amended: the hard ten-message cap holds for the context actually
incorporated into the generation prompt, not for the history argument
passed to the generator: `generateReply` itself truncates the supplied
history to its last ten messages — a suffix, chronological order
preserved — and renders exactly that window into the prompt. -/
theorem claim4_window_cap (hist : List MessageData) :
    (recentOf hist).length ≤ MAX_HISTORY_MESSAGES ∧
    hist.take (hist.length - MAX_HISTORY_MESSAGES) ++ recentOf hist = hist ∧
    (List.Sorted tsLe hist → List.Sorted tsLe (recentOf hist)) ∧
    (∀ sentMessage : String,
      promptFor sentMessage hist =
        DOMAIN_KNOWLEDGE ++ "\n\nPrevious conversation:\n" ++
          (if joinSep "\n" ((recentOf hist).map renderTurn) = ""
           then "This is the start of the conversation."
           else joinSep "\n" ((recentOf hist).map renderTurn)) ++
          "\n\nCustomer: " ++ sentMessage ++ "\nSupport Agent:") := by
  refine ⟨?_, ?_, ?_, ?_⟩
  · unfold recentOf
    rw [List.length_drop]
    omega
  · exact List.take_append_drop _ hist
  · intro hs
    exact List.Pairwise.sublist (List.drop_sublist _ _) hs
  · intro sentMessage
    rfl

/-- Witness for C4 on a concrete singleton history. -/
theorem claim4_witness :
    List.Sorted tsLe (recentOf [⟨"m", "c", Sender.user, "x", 1⟩]) :=
  (claim4_window_cap [⟨"m", "c", Sender.user, "x", 1⟩]).2.2.1 (by simp)

/-! ### Claim C10 -/

/-- A sorted permutation of `l ++ [x]` in which `x` strictly dominates
every element of `l` must end with `x`. -/
lemma sorted_append_last {l' l : List MessageData} {x : MessageData}
    (hs : List.Sorted tsLe l') (hp : List.Perm l' (l ++ [x]))
    (hlt : ∀ y ∈ l, y.timestamp < x.timestamp) :
    ∃ l'', l' = l'' ++ [x] := by
  have hne : l' ≠ [] := by
    intro h
    rw [h] at hp
    have := hp.length_eq
    simp at this
  refine ⟨l'.dropLast, ?_⟩
  have hlast := List.dropLast_append_getLast hne
  have hzmem : l'.getLast hne ∈ l ++ [x] := hp.mem_iff.mp (List.getLast_mem hne)
  rw [List.mem_append, List.mem_singleton] at hzmem
  rcases hzmem with hzl | hzx
  · exfalso
    have hxl : x ∈ l' := hp.mem_iff.mpr (by simp)
    have hzlt : (l'.getLast hne).timestamp < x.timestamp := hlt _ hzl
    rw [← hlast] at hxl hs
    rw [List.mem_append, List.mem_singleton] at hxl
    rcases hxl with hxd | hxz
    · have hxz : tsLe x (l'.getLast hne) :=
        (List.pairwise_append.mp hs).2.2 x hxd _ (by simp)
      have : x.timestamp ≤ (l'.getLast hne).timestamp := hxz
      omega
    · rw [hxz] at hzlt
      exact lt_irrefl _ hzlt
  · rw [← hzx]
    exact hlast.symm

/-- Joining a list ending in `s` produces a string ending in `s`. -/
lemma joinSep_last (L : List String) (s : String) :
    ∃ pre : List Char, (joinSep "\n" (L ++ [s])).data = pre ++ s.data := by
  induction L with
  | nil => exact ⟨[], rfl⟩
  | cons a L ih =>
    obtain ⟨pre, hpre⟩ := ih
    cases L with
    | nil =>
      refine ⟨a.data ++ [Char.ofNat 10], ?_⟩
      show (a ++ "\n" ++ s).data = _
      simp [String.data_append, List.append_assoc]
    | cons b L' =>
      refine ⟨a.data ++ [Char.ofNat 10] ++ pre, ?_⟩
      show (a ++ "\n" ++ joinSep "\n" ((b :: L') ++ [s])).data = _
      rw [String.data_append, String.data_append, hpre]
      simp [List.append_assoc]

/-- C10: because the route persists the user's message before fetching
history, the fetched history ends with that message (its timestamp
strictly dominating all earlier ones), the generator's ten-message window
keeps the final message, and the generator appends the (untruncated, for
route-validated lengths) user message again after the rendered history —
so the prompt handed to the provider (by definition of `generateReplyAux`,
the string `promptFor (truncateMessage message) hist`) contains the
rendered line `Customer: <message>` twice. -/
theorem claim10_message_duplicated_in_prompt (st : Store) (message : String)
    (sessionId : Option String) (newConvId mid1 : String) (t0 t1 : Nat)
    (hlen : jsLen message ≤ 2000)
    (hclock : ∀ m ∈ st.messages, m.timestamp < t1) :
    ∃ p1 p2 p3 : List Char,
      (promptFor (truncateMessage message)
          (contextPassedToGenerator st message sessionId newConvId mid1 t0 t1)).data =
        p1 ++ ("Customer: " ++ message).data ++ p2 ++
          ("Customer: " ++ message).data ++ p3 := by
  have htrunc : truncateMessage message = message := by
    have h2 : ¬ (MAX_MESSAGE_LENGTH < jsLen message) := by
      rw [show MAX_MESSAGE_LENGTH = 2000 from rfl]
      omega
    simp [truncateMessage, h2]
  set cid := (getOrCreateConversation st sessionId newConvId t0).1.id with hcid
  set u : MessageData := ⟨mid1, cid, Sender.user, message, t1⟩ with hu
  have hctx : contextPassedToGenerator st message sessionId newConvId mid1 t0 t1 =
      List.insertionSort tsLe
        (st.messages.filter (fun m => m.conversationId == cid) ++ [u]) := by
    simp only [contextPassedToGenerator, getMessages, addMessage, getOrCreate_messages]
    rw [List.filter_append]
    simp [hu]
  obtain ⟨l'', hl⟩ := sorted_append_last
    (List.sorted_insertionSort tsLe
      (st.messages.filter (fun m => m.conversationId == cid) ++ [u]))
    (List.perm_insertionSort tsLe
      (st.messages.filter (fun m => m.conversationId == cid) ++ [u]))
    (fun y hy => hclock y (List.mem_of_mem_filter hy))
  rw [hctx, hl]
  have hrec : recentOf (l'' ++ [u]) =
      l''.drop ((l'' ++ [u]).length - MAX_HISTORY_MESSAGES) ++ [u] := by
    unfold recentOf
    rw [List.drop_append_of_le_length]
    rw [List.length_append, show MAX_HISTORY_MESSAGES = 10 from rfl]
    simp
  have hrt : renderTurn u = "Customer: " ++ message := rfl
  obtain ⟨pre, hpre⟩ :=
    joinSep_last ((l''.drop ((l'' ++ [u]).length - MAX_HISTORY_MESSAGES)).map renderTurn)
      (renderTurn u)
  have hht : (historyTextOf (l'' ++ [u])).data =
      pre ++ ("Customer: " ++ message).data := by
    unfold historyTextOf
    rw [hrec, List.map_append, List.map_singleton, hpre, hrt]
  have hne : historyTextOf (l'' ++ [u]) ≠ "" := by
    intro h
    have hdata := congrArg String.data h
    rw [hht] at hdata
    rw [String.data_append] at hdata
    simp [List.append_eq_nil] at hdata
  refine ⟨DOMAIN_KNOWLEDGE.data ++ "\n\nPrevious conversation:\n".data ++ pre,
    "\n\n".data, "\nSupport Agent:".data, ?_⟩
  unfold promptFor
  rw [if_neg hne, htrunc]
  simp only [String.data_append]
  rw [hht]
  simp [List.append_assoc, String.data_append]

/-- Witness for C10 at a concrete first message. -/
theorem claim10_witness :
    ∃ p1 p2 p3 : List Char,
      (promptFor (truncateMessage "hello")
          (contextPassedToGenerator ⟨[], []⟩ "hello" none "c1" "m1" 0 1)).data =
        p1 ++ ("Customer: " ++ "hello").data ++ p2 ++
          ("Customer: " ++ "hello").data ++ p3 :=
  claim10_message_duplicated_in_prompt ⟨[], []⟩ "hello" none "c1" "m1" 0 1
    (by decide) (by simp)

end ChatBot
